import Mathlib

/-!
Verification of the hubot-hackbot HTTP client layer.

Two artefacts are embedded:

* the legacy CoffeeScript client `src/lib/client.coffee` (namespace
  `Coffee`), embedded directly from the source;

* the TypeScript client exercised by `src/test/client_test.ts` and the
  script layer (namespace `Spec`).  Its implementation file
  (`src/client.ts`) is not part of the source tree here — only its tests
  and callers are — so its definitions are modelled from the
  specification's words (request builder §4.1, response resolver §4.2,
  error taxonomy §7), each marked `Modelled from the spec:`.
-/

namespace Hackbot

/-- JSON values, as produced by `JSON.parse` / consumed by `JSON.stringify`.
Numbers are modelled as integers (the client never uses fractional
numbers). -/
inductive Json where
  | null : Json
  | bool (b : Bool) : Json
  | num (n : Int) : Json
  | str (s : String) : Json
  | arr (elems : List Json) : Json
  | obj (fields : List (String × Json)) : Json

namespace Coffee

/-- Process environment consumed by `src/lib/client.coffee`:
`HACKBOT_USERNAME`, `HACKBOT_PASSWORD` and `HACK24API_URL` are read from
`process.env`. -/
structure Env where
  hackbotUsername : String
  hackbotPassword : String
  hack24ApiUrl : String

/-- Embeds `getAuth = () -> "#{process.env.HACKBOT_USERNAME}:#{process.env.HACKBOT_PASSWORD}"`
(src/lib/client.coffee line 1). -/
def getAuth (env : Env) : String :=
  env.hackbotUsername ++ ":" ++ env.hackbotPassword

/-- An HTTP request as assembled by the CoffeeScript client before it is
handed to `robot.http`: target URL, the optional `auth` transport option,
the explicitly set headers, the method and the request body (a JSON value;
the source serialises it with `JSON.stringify` at the call site). -/
structure Request where
  url : String
  auth : Option String
  headers : List (String × String)
  method : String
  body : Option Json

/-- Embeds the request assembled by `Client.createTeam` (src/lib/client.coffee
lines 5-15): POST to `#{HACK24API_URL}/teams` with the `auth` option set to
`getAuth()`, header `Content-Type: application/json`, and body
`{name: teamName, members: [userId]}`. -/
def createTeamRequest (env : Env) (teamName userId : String) : Request :=
  { url := env.hack24ApiUrl ++ "/teams"
    auth := some (getAuth env)
    headers := [("Content-Type", "application/json")]
    method := "POST"
    body := some (Json.obj
      [("name", Json.str teamName), ("members", Json.arr [Json.str userId])]) }

/-- Embeds the request assembled by `Client.createUser` (src/lib/client.coffee
lines 17-27): POST to `#{HACK24API_URL}/users` with the `auth` option set to
`getAuth()`, header `Content-Type: application/json`, and body
`{userid: userId, name: userName}`. -/
def createUserRequest (env : Env) (userId userName : String) : Request :=
  { url := env.hack24ApiUrl ++ "/users"
    auth := some (getAuth env)
    headers := [("Content-Type", "application/json")]
    method := "POST"
    body := some (Json.obj
      [("userid", Json.str userId), ("name", Json.str userName)]) }

/-- Outcome of one CoffeeScript client promise: either rejected with the
transport error handed to the callback, or resolved with a value. -/
inductive PromiseResult (α : Type) where
  | rejected (err : String) : PromiseResult α
  | resolved (value : α) : PromiseResult α

/-- Result shape resolved by `Client.getUser`: `{ statusCode }` with the
`user` field set only in the 200 branch. -/
structure UserResult where
  statusCode : Nat
  user : Option Json

/-- Result shape resolved by `Client.getTeamByName`: `{ statusCode }` with
the `team` field set only in the 200 branch. -/
structure TeamResult where
  statusCode : Nat
  team : Option Json

/-- Embeds the response callback of `Client.getUser` (src/lib/client.coffee
lines 40-44): reject when `err?`, otherwise resolve
`{ statusCode: res.statusCode }`, adding `result.user = JSON.parse(body)`
exactly when `res.statusCode is 200`.  `parsedBody` stands for
`JSON.parse(body)`. -/
def getUserCallback (err : Option String) (statusCode : Nat)
    (parsedBody : Json) : PromiseResult UserResult :=
  match err with
  | some e => .rejected e
  | none =>
      .resolved { statusCode := statusCode
                  user := if statusCode == 200 then some parsedBody else none }

/-- Embeds the response callback of `Client.getTeamByName`
(src/lib/client.coffee lines 50-54): reject when `err?`, otherwise resolve
`{ statusCode: res.statusCode }`, adding `result.team = JSON.parse(body)`
exactly when `res.statusCode is 200`. -/
def getTeamByNameCallback (err : Option String) (statusCode : Nat)
    (parsedBody : Json) : PromiseResult TeamResult :=
  match err with
  | some e => .rejected e
  | none =>
      .resolved { statusCode := statusCode
                  team := if statusCode == 200 then some parsedBody else none }

end Coffee

namespace Spec

/-- Modelled from the spec: process-wide configuration of the TypeScript
client (`src/client.ts`, absent from the source tree): backend base URL and
the credential password (§6 Configuration). -/
structure Config where
  baseUrl : String
  password : String

/-- The base64 alphabet, A-Z a-z 0-9 + /. -/
def base64Chars : List Char :=
  "ABCDEFGHIJKLMNOPQRSTUVWXYZabcdefghijklmnopqrstuvwxyz0123456789+/".toList

/-- The base64 digit for a 6-bit group. -/
def base64Digit (n : Nat) : Char := base64Chars.getD n '='

/-- Encode a byte list into base64 characters, three bytes to four digits,
padding the final group with `=`. -/
def base64Groups : List Nat → List Char
  | [] => []
  | [b1] => [base64Digit (b1 / 4), base64Digit (b1 % 4 * 16), '=', '=']
  | [b1, b2] =>
      [base64Digit (b1 / 4), base64Digit (b1 % 4 * 16 + b2 / 16),
       base64Digit (b2 % 16 * 4), '=']
  | b1 :: b2 :: b3 :: rest =>
      base64Digit (b1 / 4) :: base64Digit (b1 % 4 * 16 + b2 / 16) ::
      base64Digit (b2 % 16 * 4 + b3 / 64) :: base64Digit (b3 % 64) ::
      base64Groups rest

/-- Standard base64 of the UTF-8 bytes of a string, as produced by
`new Buffer(s).toString(\x27base64\x27)` in the tests. -/
def base64Encode (s : String) : String :=
  String.mk (base64Groups (s.toUTF8.data.toList.map UInt8.toNat))

/-- The JSON:API media type sent in `Content-Type` and `Accept`. -/
def jsonApiMime : String := "application/vnd.api+json"

/-- An HTTP request as produced by the Request Builder (§4.1): method,
target URL, headers, optional JSON body. -/
structure Request where
  method : String
  url : String
  headers : List (String × String)
  body : Option Json

/-- Modelled from the spec: the conditional Basic-Auth header (§4.1):
`Basic base64(email + ":" + password)` when an email is supplied, no
`Authorization` entry at all otherwise. -/
def authHeader (email : Option String) (cfg : Config) : List (String × String) :=
  match email with
  | some e => [("Authorization", "Basic " ++ base64Encode (e ++ ":" ++ cfg.password))]
  | none => []

/-- Modelled from the spec: header block of every mutating request (§4.1):
conditional `Authorization`, then `Content-Type` and `Accept` both set to
the JSON:API media type. -/
def mutationHeaders (email : Option String) (cfg : Config) : List (String × String) :=
  authHeader email cfg ++ [("Content-Type", jsonApiMime), ("Accept", jsonApiMime)]

/-- Modelled from the spec: `createTeam(teamName, userId, email)` request
(§4.1 table): POST `/teams`, JSON:API resource of type `teams` with
attribute `name` and relationship `members = [{type: users, id: userId}]`. -/
def createTeamRequest (cfg : Config) (teamName userId : String)
    (email : Option String) : Request :=
  { method := "POST"
    url := cfg.baseUrl ++ "/teams"
    headers := mutationHeaders email cfg
    body := some (Json.obj [("data", Json.obj
      [("type", Json.str "teams"),
       ("attributes", Json.obj [("name", Json.str teamName)]),
       ("relationships", Json.obj [("members", Json.obj [("data",
         Json.arr [Json.obj [("type", Json.str "users"), ("id", Json.str userId)]])])])])]) }

/-- Modelled from the spec: `createUser(userId, userName, email)` request
(§4.1 table): POST `/users`, JSON:API resource of type `users` with
explicit `id` and attribute `name`. -/
def createUserRequest (cfg : Config) (userId userName : String)
    (email : Option String) : Request :=
  { method := "POST"
    url := cfg.baseUrl ++ "/users"
    headers := mutationHeaders email cfg
    body := some (Json.obj [("data", Json.obj
      [("type", Json.str "users"),
       ("id", Json.str userId),
       ("attributes", Json.obj [("name", Json.str userName)])])]) }

/-- Modelled from the spec: `addUserToTeam(teamId, userId, email)` request
(§4.1 table): POST `/teams/{teamId}/members` with body
`{data: [{type: users, id: userId}]}`. -/
def addUserToTeamRequest (cfg : Config) (teamId userId : String)
    (email : Option String) : Request :=
  { method := "POST"
    url := cfg.baseUrl ++ "/teams/" ++ teamId ++ "/members"
    headers := mutationHeaders email cfg
    body := some (Json.obj [("data",
      Json.arr [Json.obj [("type", Json.str "users"), ("id", Json.str userId)]])]) }

/-- Modelled from the spec: `removeTeamMember(teamId, userId, email)`
request (§4.1 table): DELETE `/teams/{teamId}/members` with body
`{data: [{type: users, id: userId}]}`. -/
def removeTeamMemberRequest (cfg : Config) (teamId userId : String)
    (email : Option String) : Request :=
  { method := "DELETE"
    url := cfg.baseUrl ++ "/teams/" ++ teamId ++ "/members"
    headers := mutationHeaders email cfg
    body := some (Json.obj [("data",
      Json.arr [Json.obj [("type", Json.str "users"), ("id", Json.str userId)]])]) }

/-- Modelled from the spec: `updateMotto(motto, teamId, email)` request
(§4.1 table): PATCH `/teams/{teamId}`, JSON:API resource of type `teams`
with `id` and attribute `motto`. -/
def updateMottoRequest (cfg : Config) (motto teamId : String)
    (email : Option String) : Request :=
  { method := "PATCH"
    url := cfg.baseUrl ++ "/teams/" ++ teamId
    headers := mutationHeaders email cfg
    body := some (Json.obj [("data", Json.obj
      [("type", Json.str "teams"),
       ("id", Json.str teamId),
       ("attributes", Json.obj [("motto", Json.str motto)])])]) }

/-- Value of the first header with the given key, if any. -/
def headerValue (r : Request) (key : String) : Option String :=
  (r.headers.find? (fun p => p.1 == key)).map (fun p => p.2)

/-- Whether the request carries a header with the given key. -/
def hasHeader (r : Request) (key : String) : Bool :=
  (r.headers.find? (fun p => p.1 == key)).isSome

/-- A JSON:API resource identifier object: `{type, id}`. -/
structure ResourceIdentifier where
  type : String
  id : String
deriving DecidableEq

/-- The `data` of a JSON:API relationship object: explicitly `null`, a
single resource identifier, or an ordered array of identifiers. -/
inductive RelationshipData where
  | null : RelationshipData
  | one (ref : ResourceIdentifier) : RelationshipData
  | many (refs : List ResourceIdentifier) : RelationshipData
deriving DecidableEq

/-- A JSON:API resource object: `type`, `id`, an `attributes` record
(string-valued here — the client only reads `name`), and a `relationships`
record mapping relationship names to their `data`. -/
structure Resource where
  type : String
  id : String
  attributes : List (String × String)
  relationships : List (String × RelationshipData)
deriving DecidableEq

/-- A JSON:API document with a single primary resource under `data` plus
the flat `included` pool (empty when the document carries none). -/
structure Document where
  data : Resource
  included : List Resource
deriving DecidableEq

/-- A minimal member reference: id and name only, never a resolved User —
relationship resolution goes exactly one level (§3). -/
structure MemberRef where
  id : String
  name : String
deriving DecidableEq

/-- A resolved Team: id, name and the ordered member references (§3). -/
structure Team where
  id : String
  name : String
  members : List MemberRef
deriving DecidableEq

/-- The `team` field of a resolved User: absent (`undefined`), explicitly
`null`, or a resolved Team (§3). -/
inductive TeamField where
  | undef : TeamField
  | null : TeamField
  | team (t : Team) : TeamField
deriving DecidableEq

/-- A resolved User: id, name and its `team` field (§3). -/
structure User where
  id : String
  name : String
  team : TeamField
deriving DecidableEq

/-- Modelled from the spec: `ok = 200 <= statusCode < 300` (§3, §4.2
step 1). -/
def okOf (statusCode : Nat) : Bool :=
  decide (200 ≤ statusCode ∧ statusCode < 300)

/-- The key identifying a resource in the lookup pool (§3). -/
def resourceKey (r : Resource) : String × String := (r.type, r.id)

/-- Look a resource identifier up in the pool by `(type, id)` (§4.2
step 4). -/
def poolLookup (pool : List Resource) (ref : ResourceIdentifier) : Option Resource :=
  pool.find? (fun r => r.type == ref.type && r.id == ref.id)

/-- The `name` attribute of a resource (empty when absent). -/
def attrName (r : Resource) : String :=
  ((r.attributes.find? (fun p => p.1 == "name")).map (fun p => p.2)).getD ""

/-- The `data` of the named relationship of a resource, when the
relationship is present at all. -/
def relData (r : Resource) (relName : String) : Option RelationshipData :=
  (r.relationships.find? (fun p => p.1 == relName)).map (fun p => p.2)

/-- Modelled from the spec: resolve one member reference against the pool
to a minimal `{id, name}` object; a reference with no matching pool entry
fails closed and is omitted (§3 invariant, §4.2 step 5). -/
def resolveMemberRef (pool : List Resource) (ref : ResourceIdentifier) :
    Option MemberRef :=
  (poolLookup pool ref).map (fun r => { id := r.id, name := attrName r })

/-- Modelled from the spec: build a Team from a `teams` resource, resolving
its `members` relationship references against the pool in array order
(§4.2 step 5); members resolve one level only, to `{id, name}`. -/
def resolveTeamResource (pool : List Resource) (r : Resource) : Team :=
  { id := r.id
    name := attrName r
    members :=
      match relData r "members" with
      | some (.many refs) => refs.filterMap (resolveMemberRef pool)
      | _ => [] }

/-- Modelled from the spec: the per-response lookup pool — the document's
primary resource plus every entry of `included` (§3). -/
def docPool (d : Document) : List Resource := d.data :: d.included

/-- Modelled from the spec: build the User domain object from a `users`
document (§4.2 step 5): `team` relationship `data: null` gives a `null`
field, a single reference resolves against the pool to a Team (failing
closed to an absent field when not found), an absent relationship leaves
the field absent. -/
def resolveUser (d : Document) : User :=
  let pool := docPool d
  { id := d.data.id
    name := attrName d.data
    team :=
      match relData d.data "team" with
      | none => .undef
      | some .null => .null
      | some (.one ref) =>
          match poolLookup pool ref with
          | some tr => .team (resolveTeamResource pool tr)
          | none => .undef
      | some (.many _) => .undef }

/-- Modelled from the spec: build the Team domain object from a `teams`
document, resolving its members against the pool (§4.2 step 5). -/
def resolveTeam (d : Document) : Team :=
  resolveTeamResource (docPool d) d.data

/-- Base result envelope of every operation: `statusCode` and `ok` (§3). -/
structure ApiResponse where
  statusCode : Nat
  ok : Bool
deriving DecidableEq

/-- Result envelope of `getUser`: optional `user` payload (§3). -/
structure UserResponse where
  statusCode : Nat
  ok : Bool
  user : Option User
deriving DecidableEq

/-- Result envelope of `getTeam`: optional `team` payload (§3). -/
structure TeamResponse where
  statusCode : Nat
  ok : Bool
  team : Option Team
deriving DecidableEq

/-- The body of an HTTP response, as seen by the resolver: either it parses
as the expected document shape, or it does not (§7 malformed success
body). -/
inductive Body where
  | wellFormed (doc : Document) : Body
  | malformed : Body
deriving DecidableEq

/-- What the HTTP transport hands back for one request: a transport-level
error (connection refused/reset, DNS failure, timeout), or a response with
a status code and a body (§7). -/
inductive TransportOutcome where
  | transportError (e : String) : TransportOutcome
  | response (statusCode : Nat) (body : Body) : TransportOutcome
deriving DecidableEq

/-- The ways one call can fail (§7 error taxonomy): rejected with the
underlying transport error unchanged, or fatally on a malformed 2xx
body — two distinct categories. -/
inductive Failure where
  | transport (e : String) : Failure
  | malformedBody : Failure
deriving DecidableEq

/-- Outcome of one operation invocation: failed (promise rejected) or
resolved with a result envelope. -/
inductive OpResult (α : Type) where
  | failed (f : Failure) : OpResult α
  | resolved (value : α) : OpResult α
deriving DecidableEq

/-- Modelled from the spec: the `getUser` operation as a function of the
transport outcome (§4.2, §7): transport errors reject the call unchanged;
a non-2xx status resolves to `{statusCode, ok: false}` with no payload
regardless of the body; a 2xx status parses the document and resolves with
the User, a malformed 2xx body being a fatal failure distinct from a
transport one. -/
def runGetUser : TransportOutcome → OpResult UserResponse
  | .transportError e => .failed (.transport e)
  | .response s body =>
      if okOf s then
        match body with
        | .wellFormed d => .resolved { statusCode := s, ok := okOf s, user := some (resolveUser d) }
        | .malformed => .failed .malformedBody
      else
        .resolved { statusCode := s, ok := okOf s, user := none }

/-- Modelled from the spec: the `getTeam` operation as a function of the
transport outcome, exactly as `getUser` but resolving a Team (§4.2, §7). -/
def runGetTeam : TransportOutcome → OpResult TeamResponse
  | .transportError e => .failed (.transport e)
  | .response s body =>
      if okOf s then
        match body with
        | .wellFormed d => .resolved { statusCode := s, ok := okOf s, team := some (resolveTeam d) }
        | .malformed => .failed .malformedBody
      else
        .resolved { statusCode := s, ok := okOf s, team := none }

/-- Modelled from the spec: any operation returning a bare `ApiResponse`
envelope (`checkApi`, `createTeam`, `createUser`, `addUserToTeam`,
`updateMotto`, `removeTeamMember`): transport errors reject the call
unchanged, any response resolves to `{statusCode, ok}` (§4.2 steps 1-2,
§7). -/
def runBasic : TransportOutcome → OpResult ApiResponse
  | .transportError e => .failed (.transport e)
  | .response s _ => .resolved { statusCode := s, ok := okOf s }

end Spec

namespace Fixtures

/-- The primary `users` resource of the getUser test scenario: `U12345`
(Barry), in team `clicky-keys`. -/
def barry : Spec.Resource :=
  { type := "users", id := "U12345", attributes := [("name", "Barry")]
    relationships := [("team", .one ⟨"teams", "clicky-keys"⟩)] }

/-- The included `teams` resource of the getUser test scenario:
`clicky-keys` with members `U12345` and `U67890`, in that order. -/
def clickyKeys : Spec.Resource :=
  { type := "teams", id := "clicky-keys", attributes := [("name", "Clicky Keys")]
    relationships := [("members", .many [⟨"users", "U12345"⟩, ⟨"users", "U67890"⟩])] }

/-- The included second member of the getUser test scenario: `U67890`
(Zackary). -/
def zackary : Spec.Resource :=
  { type := "users", id := "U67890", attributes := [("name", "Zackary")]
    relationships := [("team", .one ⟨"teams", "clicky-keys"⟩)] }

/-- The full getUser response document of the "user exists and in a team"
test scenario. -/
def userDoc : Spec.Document := { data := barry, included := [clickyKeys, zackary] }

/-- The same document with the two `included` entries swapped. -/
def userDocSwapped : Spec.Document := { data := barry, included := [zackary, clickyKeys] }

/-- The primary resource of the "user exists and not in a team" test
scenario: relationship `team` with `data: null`. -/
def barryNoTeam : Spec.Resource :=
  { type := "users", id := "U12345", attributes := [("name", "Barry")]
    relationships := [("team", .null)] }

/-- The document of the "user exists and not in a team" test scenario (no
`included` array). -/
def noTeamDoc : Spec.Document := { data := barryNoTeam, included := [] }

end Fixtures

/-! ### Theorems -/

/-- C1: for every operation result envelope and every HTTP status code
`s`, the envelope's `ok` field equals the predicate `200 <= s < 300`; in
particular the boundary values 199, 200, 299 and 300 yield `ok` false,
true, true, false respectively. -/
theorem c1_ok_iff_2xx :
    (∀ s : Nat, Spec.okOf s = true ↔ 200 ≤ s ∧ s < 300) ∧
    (Spec.okOf 199 = false ∧ Spec.okOf 200 = true ∧
     Spec.okOf 299 = true ∧ Spec.okOf 300 = false) ∧
    (∀ s body env, Spec.runBasic (.response s body) = .resolved env →
      env.ok = Spec.okOf s ∧ env.statusCode = s) ∧
    (∀ s body env, Spec.runGetUser (.response s body) = .resolved env →
      env.ok = Spec.okOf s ∧ env.statusCode = s) ∧
    (∀ s body env, Spec.runGetTeam (.response s body) = .resolved env →
      env.ok = Spec.okOf s ∧ env.statusCode = s) := by
  refine ⟨fun s => by simp [Spec.okOf], by decide, ?_, ?_, ?_⟩
  · intro s body env h
    simp only [Spec.runBasic, Spec.OpResult.resolved.injEq] at h
    subst h
    exact ⟨rfl, rfl⟩
  · intro s body env h
    simp only [Spec.runGetUser] at h
    split at h
    · cases body with
      | wellFormed d => simp only [Spec.OpResult.resolved.injEq] at h; subst h; exact ⟨rfl, rfl⟩
      | malformed => exact absurd h (by simp)
    · simp only [Spec.OpResult.resolved.injEq] at h; subst h; exact ⟨rfl, rfl⟩
  · intro s body env h
    simp only [Spec.runGetTeam] at h
    split at h
    · cases body with
      | wellFormed d => simp only [Spec.OpResult.resolved.injEq] at h; subst h; exact ⟨rfl, rfl⟩
      | malformed => exact absurd h (by simp)
    · simp only [Spec.OpResult.resolved.injEq] at h; subst h; exact ⟨rfl, rfl⟩

/-- Witness for C1: the `404` envelope of `runGetUser` carries
`ok = okOf 404 = false` and the observed status code. -/
theorem c1_ok_iff_2xx_witness :
    ({ statusCode := 404, ok := false, user := none } : Spec.UserResponse).ok = Spec.okOf 404 ∧
    ({ statusCode := 404, ok := false, user := none } : Spec.UserResponse).statusCode = 404 :=
  c1_ok_iff_2xx.2.2.2.1 404 Spec.Body.malformed
    { statusCode := 404, ok := false, user := none } (by decide)

/-- C2: every response with a status code outside 2xx resolves normally
(no rejection) to an envelope with the observed `statusCode`, `ok = false`
and no domain payload, whatever the body contains. -/
theorem c2_non2xx_resolves_without_payload :
    ∀ (s : Nat) (body : Spec.Body), Spec.okOf s = false →
      Spec.runGetUser (.response s body) =
        .resolved { statusCode := s, ok := false, user := none } ∧
      Spec.runGetTeam (.response s body) =
        .resolved { statusCode := s, ok := false, team := none } ∧
      Spec.runBasic (.response s body) =
        .resolved { statusCode := s, ok := false } := by
  intro s body h
  refine ⟨?_, ?_, ?_⟩
  · simp [Spec.runGetUser, h]
  · simp [Spec.runGetTeam, h]
  · simp [Spec.runBasic, h]

/-- Witness for C2: the 404-with-error-document scenario of the getUser
tests resolves to `{statusCode: 404, ok: false, user: undefined}`. -/
theorem c2_non2xx_resolves_without_payload_witness :
    Spec.runGetUser (.response 404 (.wellFormed Fixtures.userDoc)) =
      .resolved { statusCode := 404, ok := false, user := none } :=
  (c2_non2xx_resolves_without_payload 404 (.wellFormed Fixtures.userDoc) (by decide)).1

/-- C3: a transport-level failure rejects the operation with the
underlying transport error unchanged, and the outcome is never a resolved
envelope. -/
theorem c3_transport_failure_rejects :
    ∀ e : String,
      Spec.runGetUser (.transportError e) = .failed (.transport e) ∧
      Spec.runGetTeam (.transportError e) = .failed (.transport e) ∧
      Spec.runBasic (.transportError e) = .failed (.transport e) ∧
      (∀ env : Spec.UserResponse, Spec.runGetUser (.transportError e) ≠ .resolved env) ∧
      (∀ env : Spec.TeamResponse, Spec.runGetTeam (.transportError e) ≠ .resolved env) ∧
      (∀ env : Spec.ApiResponse, Spec.runBasic (.transportError e) ≠ .resolved env) := by
  intro e
  refine ⟨rfl, rfl, rfl, ?_, ?_, ?_⟩ <;> intro env h <;> simp [Spec.runGetUser, Spec.runGetTeam, Spec.runBasic] at h

/-- Witness for C3: the `socket hang up` transport error of the tests is
propagated unchanged by `runGetUser`. -/
theorem c3_transport_failure_rejects_witness :
    Spec.runGetUser (.transportError "socket hang up") =
      .failed (.transport "socket hang up") :=
  (c3_transport_failure_rejects "socket hang up").1

/-- C4: a 200 `getUser` answer whose primary user has relationship `team`
with `data: null` resolves with `user.team` strictly equal to `null` (not
absent), and the call does not fail. -/
theorem c4_null_team_is_null :
    ∀ d : Spec.Document, Spec.relData d.data "team" = some .null →
      (Spec.resolveUser d).team = .null ∧
      (Spec.resolveUser d).team ≠ .undef ∧
      Spec.runGetUser (.response 200 (.wellFormed d)) =
        .resolved { statusCode := 200, ok := true, user := some (Spec.resolveUser d) } := by
  intro d h
  refine ⟨?_, ?_, ?_⟩
  · simp [Spec.resolveUser, h]
  · simp [Spec.resolveUser, h]
  · simp [Spec.runGetUser, Spec.okOf]

/-- Witness for C4: the "user exists and not in a team" test document
resolves to a strictly null team. -/
theorem c4_null_team_is_null_witness :
    (Spec.resolveUser Fixtures.noTeamDoc).team = .null :=
  (c4_null_team_is_null Fixtures.noTeamDoc (by decide)).1

/-- C5: when a 200 `getUser` document's `team` relationship resolves via
the pool to a team whose `members` relationship holds exactly two
references, both of which resolve, `user.team.members` is the ordered list
of exactly those two minimal `{id, name}` references, in server-supplied
order. -/
theorem c5_two_members_in_order :
    ∀ (d : Spec.Document) (teamRef refA refB : Spec.ResourceIdentifier)
      (tr ra rb : Spec.Resource),
      Spec.relData d.data "team" = some (.one teamRef) →
      Spec.poolLookup (Spec.docPool d) teamRef = some tr →
      Spec.relData tr "members" = some (.many [refA, refB]) →
      Spec.poolLookup (Spec.docPool d) refA = some ra →
      Spec.poolLookup (Spec.docPool d) refB = some rb →
      (Spec.resolveUser d).team = .team
        { id := tr.id
          name := Spec.attrName tr
          members := [{ id := ra.id, name := Spec.attrName ra },
                      { id := rb.id, name := Spec.attrName rb }] } := by
  intro d teamRef refA refB tr ra rb hteam htr hmem hra hrb
  simp [Spec.resolveUser, hteam, htr, Spec.resolveTeamResource, hmem,
        Spec.resolveMemberRef, hra, hrb]

/-- Witness for C5: the "user exists and in a team" test document resolves
to members Barry then Zackary, in that order. -/
theorem c5_two_members_in_order_witness :
    (Spec.resolveUser Fixtures.userDoc).team = .team
      { id := "clicky-keys"
        name := "Clicky Keys"
        members := [{ id := "U12345", name := "Barry" },
                    { id := "U67890", name := "Zackary" }] } :=
  c5_two_members_in_order Fixtures.userDoc ⟨"teams", "clicky-keys"⟩
    ⟨"users", "U12345"⟩ ⟨"users", "U67890"⟩
    Fixtures.clickyKeys Fixtures.barry Fixtures.zackary
    (by decide) (by decide) (by decide) (by decide) (by decide)

/-- C6: every mutating request carries `Content-Type` and `Accept` set to
`application/vnd.api+json`; when an email is supplied it carries
`Authorization: Basic base64(email:password)` with the process-wide
password, and when no email is supplied the `Authorization` header is
omitted entirely. -/
theorem c6_mutation_headers :
    ∀ (cfg : Spec.Config) (x y e : String),
      (Spec.headerValue (Spec.createTeamRequest cfg x y (some e)) "Authorization"
          = some ("Basic " ++ Spec.base64Encode (e ++ ":" ++ cfg.password)) ∧
        Spec.headerValue (Spec.createTeamRequest cfg x y (some e)) "Content-Type" = some Spec.jsonApiMime ∧
        Spec.headerValue (Spec.createTeamRequest cfg x y (some e)) "Accept" = some Spec.jsonApiMime ∧
        Spec.hasHeader (Spec.createTeamRequest cfg x y none) "Authorization" = false ∧
        Spec.headerValue (Spec.createTeamRequest cfg x y none) "Content-Type" = some Spec.jsonApiMime ∧
        Spec.headerValue (Spec.createTeamRequest cfg x y none) "Accept" = some Spec.jsonApiMime) ∧
      (Spec.headerValue (Spec.createUserRequest cfg x y (some e)) "Authorization"
          = some ("Basic " ++ Spec.base64Encode (e ++ ":" ++ cfg.password)) ∧
        Spec.headerValue (Spec.createUserRequest cfg x y (some e)) "Content-Type" = some Spec.jsonApiMime ∧
        Spec.headerValue (Spec.createUserRequest cfg x y (some e)) "Accept" = some Spec.jsonApiMime ∧
        Spec.hasHeader (Spec.createUserRequest cfg x y none) "Authorization" = false ∧
        Spec.headerValue (Spec.createUserRequest cfg x y none) "Content-Type" = some Spec.jsonApiMime ∧
        Spec.headerValue (Spec.createUserRequest cfg x y none) "Accept" = some Spec.jsonApiMime) ∧
      (Spec.headerValue (Spec.addUserToTeamRequest cfg x y (some e)) "Authorization"
          = some ("Basic " ++ Spec.base64Encode (e ++ ":" ++ cfg.password)) ∧
        Spec.headerValue (Spec.addUserToTeamRequest cfg x y (some e)) "Content-Type" = some Spec.jsonApiMime ∧
        Spec.headerValue (Spec.addUserToTeamRequest cfg x y (some e)) "Accept" = some Spec.jsonApiMime ∧
        Spec.hasHeader (Spec.addUserToTeamRequest cfg x y none) "Authorization" = false ∧
        Spec.headerValue (Spec.addUserToTeamRequest cfg x y none) "Content-Type" = some Spec.jsonApiMime ∧
        Spec.headerValue (Spec.addUserToTeamRequest cfg x y none) "Accept" = some Spec.jsonApiMime) ∧
      (Spec.headerValue (Spec.updateMottoRequest cfg x y (some e)) "Authorization"
          = some ("Basic " ++ Spec.base64Encode (e ++ ":" ++ cfg.password)) ∧
        Spec.headerValue (Spec.updateMottoRequest cfg x y (some e)) "Content-Type" = some Spec.jsonApiMime ∧
        Spec.headerValue (Spec.updateMottoRequest cfg x y (some e)) "Accept" = some Spec.jsonApiMime ∧
        Spec.hasHeader (Spec.updateMottoRequest cfg x y none) "Authorization" = false ∧
        Spec.headerValue (Spec.updateMottoRequest cfg x y none) "Content-Type" = some Spec.jsonApiMime ∧
        Spec.headerValue (Spec.updateMottoRequest cfg x y none) "Accept" = some Spec.jsonApiMime) ∧
      (Spec.headerValue (Spec.removeTeamMemberRequest cfg x y (some e)) "Authorization"
          = some ("Basic " ++ Spec.base64Encode (e ++ ":" ++ cfg.password)) ∧
        Spec.headerValue (Spec.removeTeamMemberRequest cfg x y (some e)) "Content-Type" = some Spec.jsonApiMime ∧
        Spec.headerValue (Spec.removeTeamMemberRequest cfg x y (some e)) "Accept" = some Spec.jsonApiMime ∧
        Spec.hasHeader (Spec.removeTeamMemberRequest cfg x y none) "Authorization" = false ∧
        Spec.headerValue (Spec.removeTeamMemberRequest cfg x y none) "Content-Type" = some Spec.jsonApiMime ∧
        Spec.headerValue (Spec.removeTeamMemberRequest cfg x y none) "Accept" = some Spec.jsonApiMime) := by
  intro cfg x y e
  exact ⟨⟨rfl, rfl, rfl, rfl, rfl, rfl⟩, ⟨rfl, rfl, rfl, rfl, rfl, rfl⟩,
         ⟨rfl, rfl, rfl, rfl, rfl, rfl⟩, ⟨rfl, rfl, rfl, rfl, rfl, rfl⟩,
         ⟨rfl, rfl, rfl, rfl, rfl, rfl⟩⟩

/-- C7: a 2xx response whose body does not parse as the expected document
shape fails the call with the malformed-body failure, which is distinct
from every transport failure and from every resolved envelope. -/
theorem c7_malformed_2xx_is_fatal :
    ∀ s : Nat, Spec.okOf s = true →
      Spec.runGetUser (.response s .malformed) = .failed .malformedBody ∧
      Spec.runGetTeam (.response s .malformed) = .failed .malformedBody ∧
      (∀ e : String, (Spec.Failure.malformedBody : Spec.Failure) ≠ .transport e) ∧
      (∀ env : Spec.UserResponse, Spec.runGetUser (.response s .malformed) ≠ .resolved env) := by
  intro s h
  refine ⟨by simp [Spec.runGetUser, h], by simp [Spec.runGetTeam, h], by simp, ?_⟩
  intro env heq
  rw [show Spec.runGetUser (.response s .malformed) = .failed .malformedBody by
        simp [Spec.runGetUser, h]] at heq
  exact absurd heq (by simp)

/-- Witness for C7: a malformed body under status 200 fails the call with
the malformed-body failure. -/
theorem c7_malformed_2xx_is_fatal_witness :
    Spec.runGetUser (.response 200 .malformed) = .failed .malformedBody :=
  (c7_malformed_2xx_is_fatal 200 (by decide)).1

/-- Helper: `find?` is invariant under permutation when any two list
entries satisfying the predicate are equal. -/
theorem find?_congr_of_perm {α : Type} {l l2 : List α} {p : α → Bool}
    (hperm : l.Perm l2)
    (huniq : ∀ x ∈ l, ∀ y ∈ l, p x = true → p y = true → x = y) :
    l.find? p = l2.find? p := by
  cases hfind : l.find? p with
  | none =>
      cases hfind2 : l2.find? p with
      | none => rfl
      | some y =>
          have hy := List.find?_some hfind2
          have hymem : y ∈ l := hperm.mem_iff.mpr (List.mem_of_find?_eq_some hfind2)
          exact absurd hy (List.find?_eq_none.mp hfind y hymem)
  | some x =>
      have hx := List.find?_some hfind
      have hxmem : x ∈ l := List.mem_of_find?_eq_some hfind
      have hsome : (l2.find? p).isSome :=
        List.find?_isSome.mpr ⟨x, hperm.mem_iff.mp hxmem, hx⟩
      cases hfind2 : l2.find? p with
      | none => rw [hfind2] at hsome; simp at hsome
      | some y =>
          have hy := List.find?_some hfind2
          have hymem : y ∈ l := hperm.mem_iff.mpr (List.mem_of_find?_eq_some hfind2)
          exact congrArg some (huniq x hxmem y hymem hx hy)

/-- Helper: pool lookup is invariant under permutation of a pool whose
`(type, id)` keys are distinct. -/
theorem poolLookup_congr_of_perm {l l2 : List Spec.Resource}
    (hperm : l.Perm l2) (hnd : (l.map Spec.resourceKey).Nodup)
    (ref : Spec.ResourceIdentifier) :
    Spec.poolLookup l ref = Spec.poolLookup l2 ref := by
  apply find?_congr_of_perm hperm
  intro a ha b hb hpa hpb
  apply List.inj_on_of_nodup_map hnd ha hb
  simp only [Bool.and_eq_true, beq_iff_eq] at hpa hpb
  simp [Spec.resourceKey, hpa.1, hpa.2, hpb.1, hpb.2]

/-- Helper: `resolveTeamResource` depends on the pool only through
lookups. -/
theorem resolveTeamResource_congr {pool pool2 : List Spec.Resource}
    (h : ∀ ref, Spec.poolLookup pool ref = Spec.poolLookup pool2 ref)
    (r : Spec.Resource) :
    Spec.resolveTeamResource pool r = Spec.resolveTeamResource pool2 r := by
  have hmem : ∀ refs : List Spec.ResourceIdentifier,
      refs.filterMap (Spec.resolveMemberRef pool) =
        refs.filterMap (Spec.resolveMemberRef pool2) :=
    fun refs => List.filterMap_congr
      (fun ref _ => by simp [Spec.resolveMemberRef, h ref])
  simp only [Spec.resolveTeamResource]
  cases hm : Spec.relData r "members" with
  | none => rfl
  | some rd =>
      cases rd with
      | null => rfl
      | one ref => rfl
      | many refs => simp [hmem refs]

/-- C8: resolution output of `getUser` and `getTeam` is invariant under
permutation of the `included` array (the keys of the resulting pool being
distinct, as JSON:API resource identities are): only presence in the pool
matters, not order. -/
theorem c8_included_permutation_invariant :
    ∀ (d : Spec.Document) (included2 : List Spec.Resource),
      d.included.Perm included2 →
      ((Spec.docPool d).map Spec.resourceKey).Nodup →
      Spec.resolveUser { data := d.data, included := included2 } = Spec.resolveUser d ∧
      Spec.resolveTeam { data := d.data, included := included2 } = Spec.resolveTeam d ∧
      (∀ s, Spec.runGetUser (.response s (.wellFormed { data := d.data, included := included2 })) =
            Spec.runGetUser (.response s (.wellFormed d))) ∧
      (∀ s, Spec.runGetTeam (.response s (.wellFormed { data := d.data, included := included2 })) =
            Spec.runGetTeam (.response s (.wellFormed d))) := by
  intro d included2 hperm hnd
  simp only [Spec.docPool] at hnd
  have hlk : ∀ ref, Spec.poolLookup (d.data :: included2) ref =
      Spec.poolLookup (d.data :: d.included) ref :=
    fun ref => (poolLookup_congr_of_perm (hperm.cons d.data) hnd ref).symm
  have hteamres : ∀ r, Spec.resolveTeamResource (d.data :: included2) r =
      Spec.resolveTeamResource (d.data :: d.included) r :=
    fun r => resolveTeamResource_congr hlk r
  have huser : Spec.resolveUser { data := d.data, included := included2 } =
      Spec.resolveUser d := by
    simp only [Spec.resolveUser, Spec.docPool]
    cases ht : Spec.relData d.data "team" with
    | none => rfl
    | some rd =>
        cases rd with
        | null => rfl
        | many refs => rfl
        | one ref => simp [hlk, hteamres]
  have hteam : Spec.resolveTeam { data := d.data, included := included2 } =
      Spec.resolveTeam d := by
    simp only [Spec.resolveTeam, Spec.docPool]
    exact hteamres d.data
  refine ⟨huser, hteam, ?_, ?_⟩
  · intro s; simp [Spec.runGetUser, huser]
  · intro s; simp [Spec.runGetTeam, hteam]

/-- Witness for C8: swapping the two `included` entries of the getUser
test document leaves the resolved user unchanged. -/
theorem c8_included_permutation_invariant_witness :
    Spec.resolveUser Fixtures.userDocSwapped = Spec.resolveUser Fixtures.userDoc :=
  (c8_included_permutation_invariant Fixtures.userDoc
    [Fixtures.zackary, Fixtures.clickyKeys]
    (List.Perm.swap Fixtures.zackary Fixtures.clickyKeys [])
    (by decide)).1

/-- C9: the CoffeeScript client's `getUser` and `getTeamByName` attach the
parsed body as the domain payload exactly when the status code is 200; any
other status (201, 204, 299 included) resolves with the status code and no
payload field. -/
theorem c9_payload_only_at_200 :
    (∀ (s : Nat) (b : Json) (r : Coffee.UserResult),
        Coffee.getUserCallback none s b = .resolved r →
        r.statusCode = s ∧ (r.user = some b ↔ s = 200) ∧ (s ≠ 200 → r.user = none)) ∧
    (∀ (s : Nat) (b : Json) (r : Coffee.TeamResult),
        Coffee.getTeamByNameCallback none s b = .resolved r →
        r.statusCode = s ∧ (r.team = some b ↔ s = 200) ∧ (s ≠ 200 → r.team = none)) := by
  constructor
  · intro s b r h
    simp only [Coffee.getUserCallback, Coffee.PromiseResult.resolved.injEq] at h
    subst h
    by_cases hs : s = 200
    · subst hs; simp
    · have hb : (s == 200) = false := by simpa using hs
      simp [hb, hs]
  · intro s b r h
    simp only [Coffee.getTeamByNameCallback, Coffee.PromiseResult.resolved.injEq] at h
    subst h
    by_cases hs : s = 200
    · subst hs; simp
    · have hb : (s == 200) = false := by simpa using hs
      simp [hb, hs]

/-- Witness for C9: a 201 response resolves with status code 201 and no
`user` field. -/
theorem c9_payload_only_at_200_witness :
    ({ statusCode := 201, user := none } : Coffee.UserResult).statusCode = 201 ∧
    (({ statusCode := 201, user := none } : Coffee.UserResult).user = some Json.null ↔ (201 : Nat) = 200) ∧
    ((201 : Nat) ≠ 200 → ({ statusCode := 201, user := none } : Coffee.UserResult).user = none) :=
  c9_payload_only_at_200.1 201 Json.null { statusCode := 201, user := none } rfl

/-- C10: in the CoffeeScript client, the auth credential attached by
`createTeam` and `createUser` is identical across all invocations: it is
built solely from the `HACKBOT_USERNAME` and `HACKBOT_PASSWORD`
environment values, is independent of every call argument, and is attached
on every such call. -/
theorem c10_uniform_auth_credential :
    ∀ (env : Coffee.Env) (t1 u1 t2 u2 i1 n1 i2 n2 : String),
      (Coffee.createTeamRequest env t1 u1).auth = some (Coffee.getAuth env) ∧
      (Coffee.createUserRequest env i1 n1).auth = some (Coffee.getAuth env) ∧
      (Coffee.createTeamRequest env t1 u1).auth = (Coffee.createTeamRequest env t2 u2).auth ∧
      (Coffee.createUserRequest env i1 n1).auth = (Coffee.createUserRequest env i2 n2).auth ∧
      (Coffee.createTeamRequest env t1 u1).auth = (Coffee.createUserRequest env i2 n2).auth ∧
      ((Coffee.createTeamRequest env t1 u1).auth).isSome = true ∧
      ((Coffee.createUserRequest env i1 n1).auth).isSome = true ∧
      Coffee.getAuth env = env.hackbotUsername ++ ":" ++ env.hackbotPassword := by
  intro env t1 u1 t2 u2 i1 n1 i2 n2
  exact ⟨rfl, rfl, rfl, rfl, rfl, rfl, rfl, rfl⟩

end Hackbot
